import Mathlib

/-!
Verification of the TradingView signal-relay service (`app.py`).

The development shallowly embeds the program's pure logic:

* Python `dict` values are embedded as association lists over `String`
  (`dget` / `dinsert` / `dupdate` model `get` / item assignment / `update`,
  preserving insertion order and replace-on-rewrite semantics).
* `load_ticker_mapping` and its line parser follow `app.py` lines 67-124;
  the stdlib `json.loads` is an external library call and is passed in as a
  parameter (`none` models a `json.JSONDecodeError`).
* `map_ticker` follows `app.py` lines 126-141.
* The webhook handler's field extraction and signal construction follow
  `app.py` lines 288-366; the Python builtins `float(str)` / `int(str)` are
  modelled by `pyFloat` / `pyInt` on plain decimal literals (optional
  whitespace, sign, digits, decimal point, exponent; the exotic forms
  `inf` / `nan` / digit underscores are outside the modelled domain).
* `broadcast_signal` (lines 171-200) is embedded as a pure function over a
  snapshot of the client registry together with a send-success predicate;
  a failing send in the source is caught by `try/except` and recorded in
  `disconnected`, so the embedding is total and returns (it never raises).
* The lazy event-loop start (`_init_broadcast_loop`, lines 202-219, reached
  from `broadcast_signal_async`, lines 221-244) is embedded as a small
  interleaving state machine over the two unsynchronized check-then-act
  steps that the source performs.
-/

/-! ## Association-list model of Python dicts -/

/-- `d.get(key)`: first (and, for lists built by `dinsert`, only) binding. -/
def dget : List (String × String) → String → Option String
  | [], _ => none
  | (k, v) :: d, key => if key = k then some v else dget d key

/-- `d[k] = v`: replace the binding in place if the key is present,
otherwise append it — Python-dict insertion-order semantics. -/
def dinsert : List (String × String) → String × String → List (String × String)
  | [], e => [e]
  | (k, v) :: d, e => if k = e.1 then (k, e.2) :: d else (k, v) :: dinsert d e

/-- `d.update(e)`: fold the entries of `e` into `d`, later keys overriding. -/
def dupdate (d e : List (String × String)) : List (String × String) :=
  e.foldl dinsert d

/-! ## Models of the Python builtins used by the handler -/

/-- ASCII whitespace, as stripped by Python `str.strip()`. -/
def pyIsSpace (c : Char) : Bool :=
  c = ' ' ∨ c = '\t' ∨ c = '\n' ∨ c = '\r' ∨ c = '\x0b' ∨ c = '\x0c'

/-- Python `str.strip()` on the character list. -/
def pyStripChars (cs : List Char) : List Char :=
  ((cs.dropWhile pyIsSpace).reverse.dropWhile pyIsSpace).reverse

/-- Python `str.strip()`. -/
def pyStrip (s : String) : String :=
  String.mk (pyStripChars s.data)

/-- Python `str.upper()` (ASCII letters). -/
def pyUpper (s : String) : String :=
  String.mk (s.data.map Char.toUpper)

/-- Python `str.startswith(\"#\")`. -/
def startsWithHash (s : String) : Bool :=
  match s.data with
  | '#' :: _ => true
  | _ => false

/-- Digit list to natural number, most significant first. -/
def digitsToNat (cs : List Char) : Nat :=
  cs.foldl (fun a c => 10 * a + (c.toNat - '0'.toNat)) 0

/-- Split a character list at the first character satisfying `p`;
`none` in the second component means no such character occurs. -/
def splitFirst (p : Char → Bool) : List Char → List Char × Option (List Char)
  | [] => ([], none)
  | c :: cs =>
    if p c then ([], some cs)
    else
      let r := splitFirst p cs
      (c :: r.1, r.2)

/-- Consume an optional leading sign; `true` means negative. -/
def parseSign : List Char → Bool × List Char
  | '+' :: cs => (false, cs)
  | '-' :: cs => (true, cs)
  | cs => (false, cs)

/-- Unsigned decimal mantissa: `digits`, `digits.digits`, `.digits` or
`digits.` — at least one digit overall. -/
def parseMantissa (cs : List Char) : Option ℚ :=
  let r := splitFirst (· = '.') cs
  match r.2 with
  | none =>
      if r.1 ≠ [] ∧ r.1.all Char.isDigit then some (digitsToNat r.1 : ℚ) else none
  | some fp =>
      if r.1 = [] ∧ fp = [] then none
      else if r.1.all Char.isDigit ∧ fp.all Char.isDigit then
        some ((digitsToNat r.1 : ℚ) + (digitsToNat fp : ℚ) / (10 : ℚ) ^ fp.length)
      else none

/-- Model of the Python builtin `float(s)` on decimal literals: optional
surrounding whitespace and sign, decimal mantissa, optional exponent.
`none` models a `ValueError`. -/
def pyFloat (s : String) : Option ℚ :=
  let cs := pyStripChars s.data
  let r := splitFirst (fun c => c = 'e' ∨ c = 'E') cs
  let sm := parseSign r.1
  match parseMantissa sm.2 with
  | none => none
  | some m =>
    let v : ℚ := if sm.1 then -m else m
    match r.2 with
    | none => some v
    | some ecs =>
      let se := parseSign ecs
      if se.2 ≠ [] ∧ se.2.all Char.isDigit then
        some (if se.1 then v / (10 : ℚ) ^ digitsToNat se.2
              else v * (10 : ℚ) ^ digitsToNat se.2)
      else none

/-- Model of the Python builtin `int(s)`: optional surrounding whitespace,
optional sign, digits only. `none` models a `ValueError`. -/
def pyInt (s : String) : Option Int :=
  let sm := parseSign (pyStripChars s.data)
  if sm.2 ≠ [] ∧ sm.2.all Char.isDigit then
    some (if sm.1 then -(digitsToNat sm.2 : Int) else (digitsToNat sm.2 : Int))
  else none

/-- Python `int(float)` truncates toward zero. -/
def pyIntOfRat (q : ℚ) : Int :=
  if 0 ≤ q then ⌊q⌋ else ⌈q⌉

/-! ## Ticker mapping (`app.py` lines 27-32, 67-141) -/

/-- `_default_ticker_mapping = {GC: MGC}` (line 27). -/
def _default_ticker_mapping : List (String × String) := [("GC", "MGC")]

/-- One line of `ticker_mapping.txt` (lines 83-102): strip, skip blank and
`#`-comment lines, split at the first `=`, strip and uppercase the source,
strip the target, keep the entry only when both sides are nonempty.
`none` means the line is skipped (with a warning in the source). -/
def parseMappingLine (line : String) : Option (String × String) :=
  let l := pyStrip line
  if l = "" ∨ startsWithHash l then none
  else
    let r := splitFirst (· = '=') l.data
    match r.2 with
    | none => none
    | some after =>
      let source := pyUpper (pyStrip (String.mk r.1))
      let target := pyStrip (String.mk after)
      if source ≠ "" ∧ target ≠ "" then some (source, target) else none

/-- The `file_mapping` dict built by the read loop (lines 79-102). -/
def parseMappingLines (lines : List String) : List (String × String) :=
  lines.foldl
    (fun m l =>
      match parseMappingLine l with
      | some e => dinsert m e
      | none => m)
    []

/-- `load_ticker_mapping` (lines 67-124): start from the defaults; if the
config file exists and yields a nonempty `file_mapping`, `update` with it;
if `TICKER_MAPPING` is a nonempty environment string, `json.loads` it and
`update` again, ignoring the environment on a parse error. `jsonLoads`
stands for the stdlib `json.loads`; `none` models `JSONDecodeError`. -/
def load_ticker_mapping (fileExists : Bool) (fileLines : List String)
    (envStr : String) (jsonLoads : String → Option (List (String × String))) :
    List (String × String) :=
  let t := _default_ticker_mapping
  let t :=
    if fileExists then
      let fm := parseMappingLines fileLines
      if fm ≠ [] then dupdate t fm else t
    else t
  if envStr ≠ "" then
    match jsonLoads envStr with
    | some env => dupdate t env
    | none => t
  else t

/-- `map_ticker` (lines 126-141): empty or `未知品种` unchanged; otherwise
look up the uppercased ticker, falling back to the original string. -/
def map_ticker (m : List (String × String)) (ticker : String) : String :=
  if ticker = "" ∨ ticker = "未知品种" then ticker
  else
    match dget m (pyUpper ticker) with
    | some v => v
    | none => ticker

/-! ## Webhook handler (`app.py` lines 288-366)

The inbound interface (spec §6) declares `ticker` and `action` as strings
and `price` / `interval` as JSON values that are expected to be numbers or
numeric strings.  A JSON field value for `price` / `interval` is embedded
as `PVal`: a string, a number (Python `int` and `float` both embed into
`ℚ`), or `pother b` — any other JSON value (list, object, `null`) that is
neither a string nor numeric, carrying only its Python truthiness `b`. -/

inductive PVal : Type where
  | pstr (s : String)
  | pnum (q : ℚ)
  | pother (truthy : Bool)
deriving DecidableEq

/-- Python truthiness of an embedded JSON value: `\"\"` and `0` are falsy. -/
def pyTruthy : PVal → Bool
  | PVal.pstr s => s ≠ ""
  | PVal.pnum q => q ≠ 0
  | PVal.pother b => b

/-- The parsed JSON body of a `POST /webhook` request; `none` is an absent
key, so `data.get` falls back to its default. -/
structure WebhookRequest : Type where
  ticker : Option String
  action : Option String
  price : Option PVal
  interval : Option PVal

/-- The `signal_data` dict built on lines 335-340: field names exactly
`Ticker`, `Action`, `Price`, `Interval`. -/
structure SignalData : Type where
  Ticker : String
  Action : String
  Price : Option ℚ
  Interval : Option Int
deriving DecidableEq

/-- Lines 311-319: `price = data.get('price', '未知价格')`; `price_value`
stays `None` unless `price` is truthy and differs from the sentinel, in
which case `float(price)` is attempted for numbers and strings, with a
`ValueError` leaving `None`; any other type also leaves `None`. -/
def priceValue (price : Option PVal) : Option ℚ :=
  match price with
  | none => none
  | some v =>
    if pyTruthy v ∧ v ≠ PVal.pstr "未知价格" then
      match v with
      | PVal.pnum q => some q
      | PVal.pstr s => pyFloat s
      | PVal.pother _ => none
    else none

/-- Lines 322-330: `interval = data.get('interval')`; `interval_value`
stays `None` unless `interval` is truthy, in which case `int(interval)` is
attempted (truncation for numbers, `pyInt` for strings), with a
`ValueError` leaving `None`. -/
def intervalValue (interval : Option PVal) : Option Int :=
  match interval with
  | none => none
  | some v =>
    if pyTruthy v then
      match v with
      | PVal.pnum q => some (pyIntOfRat q)
      | PVal.pstr s => pyInt s
      | PVal.pother _ => none
    else none

/-- The HTTP response and side effects of one `webhook_listener` call. -/
structure WebhookResult : Type where
  status : Nat
  body_status : String
  body_message : String
  signal : SignalData
  broadcasted : Bool
deriving DecidableEq

/-- `webhook_listener` (lines 288-366) on a parsed JSON object body:
extract fields with their defaults, convert `price` / `interval`, apply
`map_ticker`, build `signal_data`, queue it for broadcast when
`WS_ENABLED`, and reply `200 success / Signal received`.  On this domain
every step is total, so the `except` branch (line 364, HTTP 400) is
unreachable. -/
def webhook_listener (ws_enabled : Bool) (mapping : List (String × String))
    (data : WebhookRequest) : WebhookResult :=
  let ticker := data.ticker.getD "未知品种"
  let action := data.action.getD "无动作"
  let price_value := priceValue data.price
  let interval_value := intervalValue data.interval
  let mapped_ticker := map_ticker mapping ticker
  let signal_data : SignalData :=
    { Ticker := mapped_ticker, Action := action,
      Price := price_value, Interval := interval_value }
  { status := 200, body_status := "success", body_message := "Signal received",
    signal := signal_data, broadcasted := ws_enabled }

/-! ## Broadcast (`app.py` lines 171-200)

Client handles are abstracted as `Nat`; `sendOk c = false` models
`await client.send(message)` raising (the `except` on line 193 catches it
and adds the client to `disconnected`).  `dumps` stands for
`json.dumps(signal_data, ensure_ascii=False)` (line 179), computed once
per call.  The embedding is a total function: a failing send is recorded,
never re-raised to the caller. -/

structure BroadcastResult : Type where
  /-- `_ws_clients` after the call. -/
  registry : List Nat
  /-- clients for which a send was attempted, in snapshot order. -/
  attempted : List Nat
  /-- `(client, message)` pairs whose send succeeded. -/
  delivered : List (Nat × String)
deriving DecidableEq

/-- The `for client in clients_copy` loop (lines 190-195): attempt every
client, record successes as deliveries and failures as disconnected. -/
def sendAll (sendOk : Nat → Bool) (message : String) :
    List Nat → List Nat × List (Nat × String) × List Nat
  | [] => ([], [], [])
  | c :: cs =>
    let r := sendAll sendOk message cs
    if sendOk c then (c :: r.1, (c, message) :: r.2.1, r.2.2)
    else (c :: r.1, r.2.1, c :: r.2.2)

/-- `broadcast_signal` (lines 171-200): no-op when `WS_ENABLED` is false;
serialize once; no-op on an empty snapshot; otherwise send to every client
in the snapshot and, if any failed, remove exactly those from the
registry (`_ws_clients -= disconnected`, guarded by `if disconnected:`). -/
def broadcast_signal (ws_enabled : Bool) (clients : List Nat)
    (sendOk : Nat → Bool) (signal_data : SignalData)
    (dumps : SignalData → String) : BroadcastResult :=
  if ws_enabled = false then ⟨clients, [], []⟩
  else
    let message := dumps signal_data
    if clients.length = 0 then ⟨clients, [], []⟩
    else
      let r := sendAll sendOk message clients
      let disconnected := r.2.2
      let registry :=
        if disconnected.isEmpty then clients
        else clients.filter (fun c => !disconnected.contains c)
      ⟨registry, r.1, r.2.1⟩

/-! ## Lazy dispatch-loop start (`app.py` lines 202-244)

`broadcast_signal_async` (the spec's `submit`) checks
`_broadcast_loop is None` (line 233) and, if so, calls
`_init_broadcast_loop`, which checks
`_broadcast_loop_thread is None or not _broadcast_loop_thread.is_alive()`
(line 214) and, if so, creates and starts a new event-loop thread
(lines 215-216).  No lock guards either check, so the check and the
thread start are separate atomic steps.  `_broadcast_loop` itself is
assigned only later, inside the spawned thread (line 210); within the
modelled window it stays unset, which only makes each check more willing
to start a thread — exactly the source's behavior before `run_loop` runs.

Each of two submitters A and B is a program counter over the steps
  0: evaluate `_broadcast_loop is None`        (line 233)
  1: evaluate the thread `None`/`is_alive` test (line 214)
  2: create and start a new event-loop thread   (lines 215-216)
  3: done (past the lazy-start code)
and a schedule is the list of which submitter takes the next atomic step
(`false` = A, `true` = B). `started` counts event-loop threads ever
started. -/

structure SubmitState : Type where
  /-- `_broadcast_loop is not None` (set only by the spawned thread). -/
  loopSet : Bool
  /-- `_broadcast_loop_thread is not None and is alive`. -/
  threadAlive : Bool
  /-- number of background event-loop threads started so far. -/
  started : Nat
  pcA : Nat
  pcB : Nat
deriving DecidableEq

/-- Process-start state: nothing initialized, both submitters at entry. -/
def initSubmitState : SubmitState :=
  { loopSet := false, threadAlive := false, started := 0, pcA := 0, pcB := 0 }

/-- One atomic step of submitter `tid` (`false` = A, `true` = B). -/
def submitStep (s : SubmitState) (tid : Bool) : SubmitState :=
  let pc := if tid then s.pcB else s.pcA
  let r : Nat × SubmitState :=
    if pc = 0 then (if s.loopSet then 3 else 1, s)
    else if pc = 1 then (if s.threadAlive then 3 else 2, s)
    else if pc = 2 then
      (3, { s with started := s.started + 1, threadAlive := true })
    else (pc, s)
  if tid then { r.2 with pcB := r.1 } else { r.2 with pcA := r.1 }

/-- Run a schedule of interleaved submitter steps from a state. -/
def runSched (s : SubmitState) (sched : List Bool) : SubmitState :=
  sched.foldl submitStep s

/-! ## Theorems -/

theorem sendAll_attempted (ok : Nat → Bool) (msg : String) :
    ∀ l : List Nat, (sendAll ok msg l).1 = l := by
  intro l
  induction l with
  | nil => rfl
  | cons c cs ih =>
    simp only [sendAll]
    split <;> simp [ih]

theorem sendAll_delivered (ok : Nat → Bool) (msg : String) :
    ∀ l : List Nat, (sendAll ok msg l).2.1
      = (l.filter ok).map (fun c => (c, msg)) := by
  intro l
  induction l with
  | nil => rfl
  | cons c cs ih =>
    simp only [sendAll, List.filter_cons]
    by_cases h : ok c <;> simp [h, ih]

theorem sendAll_disconnected (ok : Nat → Bool) (msg : String) :
    ∀ l : List Nat, (sendAll ok msg l).2.2 = l.filter (fun c => !ok c) := by
  intro l
  induction l with
  | nil => rfl
  | cons c cs ih =>
    simp only [sendAll, List.filter_cons]
    by_cases h : ok c <;> simp [h, ih]

theorem registry_after_prune (clients : List Nat) (ok : Nat → Bool) :
    (if (clients.filter (fun c => !ok c)).isEmpty then clients
     else clients.filter (fun c => !(clients.filter (fun c => !ok c)).contains c))
      = clients.filter ok := by
  by_cases h : (clients.filter (fun c => !ok c)).isEmpty
  · rw [if_pos h]
    rw [List.isEmpty_iff] at h
    have h' := List.filter_eq_nil_iff.mp h
    refine (List.filter_eq_self.mpr ?_).symm
    intro x hx
    have := h' x hx
    simpa using this
  · rw [if_neg h]
    apply List.filter_congr
    intro x hx
    by_cases hok : ok x <;> simp [List.mem_filter, hx, hok]

/-- C1: with broadcasting enabled, `broadcast_signal` attempts the send to
every handle in its snapshot even when some sends fail, returns (failures
are caught, never re-raised), and leaves the registry equal to the prior
membership minus exactly the handles whose send failed; with three
registered handles where sending to the second fails, the registry
afterwards holds exactly the first and third, both of which received the
same serialized message. -/
theorem broadcast_signal_prunes_failed_clients :
    (∀ (clients : List Nat) (sendOk : Nat → Bool) (sd : SignalData)
        (dumps : SignalData → String),
      (broadcast_signal true clients sendOk sd dumps).attempted = clients ∧
      (broadcast_signal true clients sendOk sd dumps).registry
        = clients.filter sendOk ∧
      (broadcast_signal true clients sendOk sd dumps).delivered
        = (clients.filter sendOk).map (fun c => (c, dumps sd))) ∧
    broadcast_signal true [1, 2, 3] (fun c => c ≠ 2)
        ⟨"MGC", "buy", none, none⟩ (fun _ => "m")
      = ⟨[1, 3], [1, 2, 3], [(1, "m"), (3, "m")]⟩ := by
  constructor
  · intro clients sendOk sd dumps
    by_cases hle : clients.length = 0
    · have hnil : clients = [] := List.length_eq_zero.mp hle
      subst hnil
      exact ⟨rfl, rfl, rfl⟩
    · have hstep : broadcast_signal true clients sendOk sd dumps
          = ⟨if ((sendAll sendOk (dumps sd) clients).2.2).isEmpty then clients
             else clients.filter
               (fun c => !((sendAll sendOk (dumps sd) clients).2.2).contains c),
             (sendAll sendOk (dumps sd) clients).1,
             (sendAll sendOk (dumps sd) clients).2.1⟩ := by
        unfold broadcast_signal
        rw [if_neg (by simp), if_neg hle]
      rw [hstep]
      refine ⟨sendAll_attempted sendOk (dumps sd) clients, ?_,
        sendAll_delivered sendOk (dumps sd) clients⟩
      show (if _ then _ else _) = _
      rw [sendAll_disconnected]
      exact registry_after_prune clients sendOk
  · decide

/-- C2: `broadcast_signal` is a registry-preserving no-op — no send
attempted, nothing delivered, no exception — both when broadcasting is
disabled by configuration and when the registry snapshot is empty. -/
theorem broadcast_signal_noop_disabled_or_empty :
    ∀ (clients : List Nat) (sendOk : Nat → Bool) (sd : SignalData)
      (dumps : SignalData → String),
      broadcast_signal false clients sendOk sd dumps = ⟨clients, [], []⟩ ∧
      broadcast_signal true [] sendOk sd dumps = ⟨[], [], []⟩ := by
  intro clients sendOk sd dumps
  exact ⟨rfl, rfl⟩

theorem submitStep_true_inv (s : SubmitState) (h1 : s.threadAlive = true)
    (h2 : s.pcB ≠ 2) :
    (submitStep s true).threadAlive = true ∧ (submitStep s true).pcB ≠ 2 ∧
      (submitStep s true).started = s.started := by
  unfold submitStep
  by_cases h0 : s.pcB = 0
  · by_cases hl : s.loopSet <;> simp [h0, hl, h1]
  · by_cases hp1 : s.pcB = 1
    · simp [h0, hp1, h1]
    · simp [h0, hp1, h1, h2]

theorem runSched_replicate_true_started (j : Nat) :
    ∀ s : SubmitState, s.threadAlive = true → s.pcB ≠ 2 →
      (runSched s (List.replicate j true)).started = s.started := by
  induction j with
  | zero => intro s _ _; rfl
  | succ n ih =>
    intro s h1 h2
    rw [List.replicate_succ]
    show (runSched (submitStep s true) (List.replicate n true)).started = s.started
    obtain ⟨i1, i2, i3⟩ := submitStep_true_inv s h1 h2
    rw [ih (submitStep s true) i1 i2, i3]

/-- C3 counterexample: two first-time submitters whose unsynchronized
check-then-act steps interleave (both pass the `_broadcast_loop is None`
and thread-liveness checks before either starts a thread) start two
background event-loop threads. -/
theorem two_interleaved_submitters_start_two_loops :
    (runSched initSubmitState [false, true, false, true, false, true]).started
      = 2 := by decide

/-- C3 amended: a first-time call to submit lazily starts the dispatch
loop, and a submitter whose steps run entirely after another submitter's
completed lazy start never starts a second loop (the liveness check sees
the running thread), so any serialized execution starts exactly one
background event-loop thread; only interleaved first-time submitters can
start two. -/
theorem serialized_submit_starts_loop_once :
    ∀ j : Nat,
      (runSched initSubmitState
        ([false, false, false] ++ List.replicate j true)).started = 1 := by
  intro j
  have happ : runSched initSubmitState
        ([false, false, false] ++ List.replicate j true)
      = runSched (runSched initSubmitState [false, false, false])
          (List.replicate j true) := by
    simp [runSched, List.foldl_append]
  have h0 : runSched initSubmitState [false, false, false]
      = { loopSet := false, threadAlive := true, started := 1,
          pcA := 3, pcB := 0 } := by decide
  rw [happ, h0]
  exact runSched_replicate_true_started j _ rfl (by decide)

theorem map_ticker_fixed (m : List (String × String)) (u : String)
    (h : dget m (pyUpper u) = none) : map_ticker m u = u := by
  by_cases h1 : u = "" ∨ u = "未知品种"
  · simp [map_ticker, h1]
  · simp [map_ticker, h1, h]

/-- C4: `map_ticker` returns an empty or sentinel (`未知品种`) ticker
unchanged; otherwise it looks up the uppercased ticker and returns the
mapped value when present and the original (not uppercased) input when
absent; it is a total function (no error condition). -/
theorem map_ticker_spec :
    ∀ (m : List (String × String)) (t : String),
      ((t = "" ∨ t = "未知品种") → map_ticker m t = t) ∧
      (¬(t = "" ∨ t = "未知品种") →
        map_ticker m t = (dget m (pyUpper t)).getD t) := by
  intro m t
  constructor
  · intro h
    simp [map_ticker, h]
  · intro h
    simp only [map_ticker, if_neg h]
    cases dget m (pyUpper t) <;> simp

theorem map_ticker_spec_witness :
    map_ticker _default_ticker_mapping "" = "" ∧
    map_ticker _default_ticker_mapping "gc"
      = (dget _default_ticker_mapping (pyUpper "gc")).getD "gc" :=
  ⟨(map_ticker_spec _default_ticker_mapping "").1 (Or.inl rfl),
   (map_ticker_spec _default_ticker_mapping "gc").2 (by decide)⟩

/-- C9: whenever the uppercase of `map_ticker m t` is not a key of the
mapping table, re-applying `map_ticker` is the identity (no transitive
chaining); witnessed on the default table by `map "gc" = "MGC"`,
`map "GC" = "MGC"`, `map "XX" = "XX"`, `map "" = ""`. -/
theorem map_ticker_idempotent_when_unchained :
    (∀ (m : List (String × String)) (t : String),
        dget m (pyUpper (map_ticker m t)) = none →
        map_ticker m (map_ticker m t) = map_ticker m t) ∧
    map_ticker _default_ticker_mapping "gc" = "MGC" ∧
    map_ticker _default_ticker_mapping "GC" = "MGC" ∧
    map_ticker _default_ticker_mapping "XX" = "XX" ∧
    map_ticker _default_ticker_mapping "" = "" := by
  refine ⟨fun m t h => map_ticker_fixed m (map_ticker m t) h, ?_, ?_, ?_, ?_⟩
    <;> decide

theorem map_ticker_idempotent_when_unchained_witness :
    map_ticker _default_ticker_mapping
        (map_ticker _default_ticker_mapping "gc")
      = map_ticker _default_ticker_mapping "gc" :=
  map_ticker_idempotent_when_unchained.1 _default_ticker_mapping "gc" (by decide)

theorem dget_dinsert_same (d : List (String × String)) (k v : String) :
    dget (dinsert d (k, v)) k = some v := by
  induction d with
  | nil => simp [dinsert, dget]
  | cons e d ih =>
    obtain ⟨k', v'⟩ := e
    by_cases h : k' = k
    · simp [dinsert, dget, h]
    · simp [dinsert, dget, h, Ne.symm h, ih]

theorem dget_dinsert_other (d : List (String × String)) (k v k' : String)
    (h : k' ≠ k) : dget (dinsert d (k, v)) k' = dget d k' := by
  induction d with
  | nil => simp [dinsert, dget, h]
  | cons e d ih =>
    obtain ⟨a, b⟩ := e
    by_cases ha : a = k
    · have hk'a : k' ≠ a := fun hh => h (hh.trans ha)
      simp [dinsert, dget, ha, hk'a, h]
    · by_cases hk'a : k' = a
      · simp [dinsert, dget, ha, hk'a]
      · simp [dinsert, dget, ha, hk'a, ih]

/-- C5: the final ticker-mapping table layers built-in defaults, then the
parsed mapping file, then the environment JSON, later sources overriding
earlier ones key-by-key: the spec's example produces exactly
`GC ↦ MGC, CL ↦ MCLX`, and a dict update rewrites exactly the written key
while leaving every other key's binding unchanged. -/
theorem ticker_mapping_layering :
    load_ticker_mapping true ["GC=MGC", "CL=MCL"] "x"
        (fun _ => some [("CL", "MCLX")])
      = [("GC", "MGC"), ("CL", "MCLX")] ∧
    (∀ (d : List (String × String)) (k v : String),
      dget (dinsert d (k, v)) k = some v) ∧
    (∀ (d : List (String × String)) (k v k' : String), k' ≠ k →
      dget (dinsert d (k, v)) k' = dget d k') :=
  ⟨by decide, dget_dinsert_same, dget_dinsert_other⟩

theorem ticker_mapping_layering_witness :
    dget (dinsert [("GC", "MGC")] ("CL", "MCLX")) "CL" = some "MCLX" ∧
    dget (dinsert [("GC", "MGC")] ("CL", "MCLX")) "GC" = some "MGC" :=
  ⟨ticker_mapping_layering.2.1 [("GC", "MGC")] "CL" "MCLX",
   (ticker_mapping_layering.2.2 [("GC", "MGC")] "CL" "MCLX" "GC" (by decide)).trans
     (by decide)⟩

theorem parseMappingLines_fold_filter (lines : List String) :
    ∀ m : List (String × String),
      lines.foldl
        (fun m l =>
          match parseMappingLine l with
          | some e => dinsert m e
          | none => m) m
      = (lines.filter (fun l => (parseMappingLine l).isSome)).foldl
          (fun m l =>
            match parseMappingLine l with
            | some e => dinsert m e
            | none => m) m := by
  induction lines with
  | nil => intro m; rfl
  | cons l ls ih =>
    intro m
    cases h : parseMappingLine l with
    | some e => simp [List.filter_cons, h, ih]
    | none => simp [List.filter_cons, h, ih]

/-- C6: malformed configuration never aborts startup or discards valid
entries — parsing the mapping file is the same as parsing only its
well-formed lines (blank, comment, no-`=`, empty-source and empty-target
lines are skipped, each concretely shown), and an environment
`TICKER_MAPPING` value that fails to parse as JSON is ignored, leaving
the default-plus-file table in effect. -/
theorem malformed_config_skipped :
    (∀ lines : List String,
      parseMappingLines lines
        = parseMappingLines
            (lines.filter (fun l => (parseMappingLine l).isSome))) ∧
    (∀ (fileExists : Bool) (fileLines : List String) (envStr : String)
        (jsonLoads : String → Option (List (String × String))),
      jsonLoads envStr = none →
      load_ticker_mapping fileExists fileLines envStr jsonLoads
        = load_ticker_mapping fileExists fileLines "" jsonLoads) ∧
    parseMappingLine "" = none ∧
    parseMappingLine "# GC=XX" = none ∧
    parseMappingLine "garbage_no_equals" = none ∧
    parseMappingLine " = MGC" = none ∧
    parseMappingLine "GC= " = none ∧
    load_ticker_mapping true
        ["GC=MGC", "garbage_no_equals", "", "# c", "=X", "A=", "CL=MCL"]
        "" (fun _ => none)
      = [("GC", "MGC"), ("CL", "MCL")] := by
  refine ⟨?_, ?_, by decide, by decide, by decide, by decide, by decide,
    by decide⟩
  · intro lines
    exact parseMappingLines_fold_filter lines []
  · intro fileExists fileLines envStr jsonLoads h
    by_cases he : envStr = ""
    · rw [he]
    · simp [load_ticker_mapping, he, h]

theorem malformed_config_skipped_witness :
    load_ticker_mapping true ["GC=MGC"] "not json" (fun _ => none)
      = load_ticker_mapping true ["GC=MGC"] "" (fun _ => none) :=
  malformed_config_skipped.2.1 true ["GC=MGC"] "not json" (fun _ => none) rfl

/-- C7: for the body `ticker="GC", action="buy", price="1950.5",
interval="10"` under mapping `GC ↦ MGC`, the webhook handler produces
exactly the outbound payload `Ticker="MGC", Action="buy", Price=1950.5,
Interval=10` and replies HTTP 200 with
`status="success", message="Signal received"`. -/
theorem webhook_example_gc_buy :
    webhook_listener true [("GC", "MGC")]
        ⟨some "GC", some "buy", some (PVal.pstr "1950.5"),
         some (PVal.pstr "10")⟩
      = { status := 200, body_status := "success",
          body_message := "Signal received",
          signal := { Ticker := "MGC", Action := "buy",
                      Price := some (1950.5 : ℚ), Interval := some 10 },
          broadcasted := true } := by
  simp +decide [webhook_listener, priceValue, intervalValue, pyTruthy,
    map_ticker, pyFloat, pyInt, pyStripChars, pyIsSpace, splitFirst,
    parseSign, parseMantissa, digitsToNat, pyUpper, dget]
  norm_num

/-- C8: a `price` or `interval` field that is missing, a non-numeric
string, or a non-numeric JSON value (list/object/null) is treated as
absent — the outbound payload carries `null` for it — and the handler
still replies HTTP 200; a malformed field is never an error. -/
theorem webhook_nonnumeric_fields_null :
    ∀ (ws : Bool) (m : List (String × String)) (req : WebhookRequest),
      (req.price = none →
        (webhook_listener ws m req).signal.Price = none) ∧
      (∀ s, req.price = some (PVal.pstr s) → pyFloat s = none →
        (webhook_listener ws m req).signal.Price = none) ∧
      (∀ b, req.price = some (PVal.pother b) →
        (webhook_listener ws m req).signal.Price = none) ∧
      (req.interval = none →
        (webhook_listener ws m req).signal.Interval = none) ∧
      (∀ s, req.interval = some (PVal.pstr s) → pyInt s = none →
        (webhook_listener ws m req).signal.Interval = none) ∧
      (∀ b, req.interval = some (PVal.pother b) →
        (webhook_listener ws m req).signal.Interval = none) ∧
      (webhook_listener ws m req).status = 200 := by
  intro ws m req
  refine ⟨?_, ?_, ?_, ?_, ?_, ?_, rfl⟩
  · intro h; simp [webhook_listener, priceValue, h]
  · intro s h hf
    simp [webhook_listener, priceValue, h, pyTruthy, hf]
  · intro b h
    by_cases hb : b <;> simp [webhook_listener, priceValue, h, pyTruthy, hb]
  · intro h; simp [webhook_listener, intervalValue, h]
  · intro s h hf
    simp [webhook_listener, intervalValue, h, pyTruthy, hf]
  · intro b h
    by_cases hb : b <;>
      simp [webhook_listener, intervalValue, h, pyTruthy, hb]

theorem webhook_nonnumeric_fields_null_witness :
    (webhook_listener true _default_ticker_mapping
        ⟨some "ES", some "sell", some (PVal.pstr "abc"), none⟩).signal.Price
      = none ∧
    (webhook_listener true _default_ticker_mapping
        ⟨some "ES", some "sell", some (PVal.pstr "abc"), none⟩).signal.Interval
      = none ∧
    (webhook_listener true _default_ticker_mapping
        ⟨some "ES", some "sell", some (PVal.pstr "abc"), none⟩).status
      = 200 :=
  ⟨(webhook_nonnumeric_fields_null true _default_ticker_mapping
      ⟨some "ES", some "sell", some (PVal.pstr "abc"), none⟩).2.1
        "abc" rfl (by decide),
   (webhook_nonnumeric_fields_null true _default_ticker_mapping
      ⟨some "ES", some "sell", some (PVal.pstr "abc"), none⟩).2.2.2.1 rfl,
   (webhook_nonnumeric_fields_null true _default_ticker_mapping
      ⟨some "ES", some "sell", some (PVal.pstr "abc"), none⟩).2.2.2.2.2.2⟩

/-- C10 counterexample: a request whose `price` field is the string "0"
does NOT get `null` in the outbound payload — "0" is a nonempty, hence
truthy, string and `float("0")` succeeds, so the payload carries the
number 0. -/
theorem price_string_zero_not_null :
    (webhook_listener true _default_ticker_mapping
        ⟨some "GC", some "buy", some (PVal.pstr "0"),
         some (PVal.pnum 10)⟩).signal.Price = some 0 ∧
    (webhook_listener true _default_ticker_mapping
        ⟨some "GC", some "buy", some (PVal.pstr "0"),
         some (PVal.pnum 10)⟩).signal.Price ≠ none := by
  constructor
  · simp +decide [webhook_listener, priceValue, pyTruthy, pyFloat,
      pyStripChars, pyIsSpace, splitFirst, parseSign, parseMantissa,
      digitsToNat]
  · simp +decide [webhook_listener, priceValue, pyTruthy, pyFloat,
      pyStripChars, pyIsSpace, splitFirst, parseSign, parseMantissa,
      digitsToNat]

/-- C10 amended: a `price` or `interval` field equal to the number 0 is
falsy and is treated as absent before numeric conversion, so the outbound
payload carries `null` for it even though the field was a valid number;
the string "0", however, is truthy and converts, so the payload carries
the number 0 for it. -/
theorem falsy_zero_number_fields_null :
    ∀ (ws : Bool) (m : List (String × String)) (req : WebhookRequest),
      (req.price = some (PVal.pnum 0) →
        (webhook_listener ws m req).signal.Price = none) ∧
      (req.interval = some (PVal.pnum 0) →
        (webhook_listener ws m req).signal.Interval = none) ∧
      (req.price = some (PVal.pstr "0") →
        (webhook_listener ws m req).signal.Price = some 0) ∧
      (req.interval = some (PVal.pstr "0") →
        (webhook_listener ws m req).signal.Interval = some 0) := by
  intro ws m req
  refine ⟨?_, ?_, ?_, ?_⟩
  · intro h; simp [webhook_listener, priceValue, h, pyTruthy]
  · intro h; simp [webhook_listener, intervalValue, h, pyTruthy]
  · intro h
    simp +decide [webhook_listener, priceValue, h, pyTruthy, pyFloat,
      pyStripChars, pyIsSpace, splitFirst, parseSign, parseMantissa,
      digitsToNat]
  · intro h
    simp +decide [webhook_listener, intervalValue, h, pyTruthy, pyInt,
      pyStripChars, pyIsSpace, splitFirst, parseSign, digitsToNat]

theorem falsy_zero_number_fields_null_witness :
    (webhook_listener true _default_ticker_mapping
        ⟨some "GC", some "buy", some (PVal.pnum 0),
         some (PVal.pnum 0)⟩).signal.Price = none ∧
    (webhook_listener true _default_ticker_mapping
        ⟨some "GC", some "buy", some (PVal.pnum 0),
         some (PVal.pnum 0)⟩).signal.Interval = none :=
  ⟨(falsy_zero_number_fields_null true _default_ticker_mapping
      ⟨some "GC", some "buy", some (PVal.pnum 0), some (PVal.pnum 0)⟩).1 rfl,
   (falsy_zero_number_fields_null true _default_ticker_mapping
      ⟨some "GC", some "buy", some (PVal.pnum 0),
       some (PVal.pnum 0)⟩).2.1 rfl⟩
